import Mathlib

/-!
Verification of `drive_temps_to_csv.py`: a filter-and-transform pipeline that
selects drive-temperature records from a health dump and renders them as CSV
lines.  The Python dictionaries are embedded as a structure of optional fields
(`dict.get` returning `None` for a missing key becomes `Option.none`); Python
string operations are modelled on the code-point list underlying `String`,
which matches Python's code-point indexing semantics.  List indexing, which in
Python raises `IndexError` when out of range, is modelled in the `Except`
monad so that totality of the formatter is a provable statement rather than a
typing artifact.
-/

/-- A primitive JSON-ish value as it appears in a health record: the fields
other than `HRI` and `ComponentName` are strings or numbers. -/
inductive PyVal where
  | str (s : String)
  | int (n : Int)
deriving DecidableEq

/-- Python truthiness of a value: empty string and numeric zero are falsy. -/
def PyVal.truthy : PyVal → Bool
  | .str s => s != ""
  | .int n => n != 0

/-- Python `str()` of a value. -/
def PyVal.toStr : PyVal → String
  | .str s => s
  | .int n => toString n

/-- One record of the raw health dump.  `element.get(key)` on a Python dict
yields `None` for a missing key, hence every field is an `Option`.  `HRI` and
`ComponentName` are strings when present (the script calls string methods on
them); the remaining six fields are any primitive value. -/
structure HealthRecord where
  HRI : Option String
  Date : Option PyVal
  Value : Option PyVal
  ComponentName : Option String
  ComponentType : Option PyVal
  Severity : Option PyVal
  Status : Option PyVal
  Units : Option PyVal
deriving DecidableEq

/-- Truthiness of an optional string field (`None`, i.e. missing, is falsy). -/
def strTruthy : Option String → Bool
  | none => false
  | some s => s != ""

/-- Truthiness of an optional primitive field (`None` is falsy). -/
def valTruthy : Option PyVal → Bool
  | none => false
  | some v => v.truthy

/-- Python `str()` of an optional field (`str(None) = "None"`). -/
def pyStr : Option PyVal → String
  | none => "None"
  | some v => v.toStr

/-- Split a list of code points at every point satisfying `p`, keeping empty
pieces — the semantics of Python `str.split(sep)` at one-character `sep` when
`p` tests for `sep`, and the raw material for whitespace `split()`. -/
def splitByPred (p : Char → Bool) : List Char → List (List Char)
  | [] => [[]]
  | c :: cs =>
    let r := splitByPred p cs
    if p c then [] :: r
    else
      match r with
      | [] => [[c]]
      | t :: ts => (c :: t) :: ts

/-- Python `s.split("/")`-style split on a single-character separator. -/
def pySplitOn (s : String) (sep : Char) : List String :=
  (splitByPred (fun c => c == sep) s.data).map String.mk

/-- Python `s.split()` with no argument: split on whitespace runs and drop
empty pieces. -/
def pySplitWhitespace (s : String) : List String :=
  ((splitByPred (fun c => c.isWhitespace) s.data).map String.mk).filter
    (fun t => t != "")

/-- Python `s[n:]`. -/
def pyDrop (s : String) (n : Nat) : String := String.mk (s.data.drop n)

/-- Python `s.endswith(suffix)`. -/
def pyEndsWith (s suffix : String) : Bool := suffix.data.isSuffixOf s.data

/-- Python `s.startswith(pre)`. -/
def pyStartsWith (s pre : String) : Bool := pre.data.isPrefixOf s.data

/-- Python `xs[i]` on a list: the element, or an `IndexError` when `i` is out
of range. -/
def pyIndex (xs : List String) (i : Nat) : Except Unit String :=
  match xs.get? i with
  | some x => Except.ok x
  | none => Except.error ()

/-- `filter` (line 30 of the script): keep the elements whose `HRI`
(defaulting to the empty string when missing) ends with `/temperature`. -/
def filter (elements : List HealthRecord) : List HealthRecord :=
  elements.filter (fun d => pyEndsWith (d.HRI.getD "") "/temperature")

/-- The truthiness check of lines 79–82: `all([hri, component_name,
component_type, date, severity, status, units, value])`. -/
def truthyAll (e : HealthRecord) : Bool :=
  strTruthy e.HRI && strTruthy e.ComponentName && valTruthy e.ComponentType &&
  valTruthy e.Date && valTruthy e.Severity && valTruthy e.Status &&
  valTruthy e.Units && valTruthy e.Value

/-- Line 85: `hri[1:].split("/")`. -/
def hriTokens (e : HealthRecord) : List String :=
  pySplitOn (pyDrop (e.HRI.getD "") 1) '/'

/-- Lines 90–92: the WWN candidate with the `naa.` prefix, when present,
dropped (4 characters, once). -/
def wwn_from_token (t : String) : String :=
  if pyStartsWith t "naa." then pyDrop t 4 else t

/-- `line_from_dict` (lines 44–97): validate the eight fields, decompose the
HRI, derive drive serial and (dead) WWN, and produce the CSV line; `Except`
models a potential Python `IndexError` from list indexing. -/
def line_from_dict (element : HealthRecord) : Except Unit (Option String) :=
  if !truthyAll element then
    Except.ok none
  else
    let hri_tokens := hriTokens element
    if hri_tokens.length < 5 then
      Except.ok none
    else
      let comp_name_tokens := pySplitWhitespace (element.ComponentName.getD "")
      Except.bind (pyIndex hri_tokens 2) fun wwn0 =>
        let _wwn := wwn_from_token wwn0
        Except.bind
          (if ¬ comp_name_tokens.length > 1 then Except.ok "unknown"
           else pyIndex comp_name_tokens 1) fun drive_serial =>
          Except.bind (pyIndex hri_tokens 1) fun system_serial =>
            Except.ok (some
              (pyStr element.Date ++ "," ++ system_serial ++ "," ++
               pyStr element.ComponentType ++ "," ++ drive_serial ++ "," ++
               pyStr element.Status ++ "," ++ pyStr element.Severity ++ "," ++
               pyStr element.Units ++ "," ++ pyStr element.Value))

/-- `elements_to_lines` (lines 100–116): apply the selector, then the line
formatter to each survivor, in order. -/
def elements_to_lines (elements : List HealthRecord)
    (filter_func : List HealthRecord → List HealthRecord)
    (line_func : HealthRecord → Except Unit (Option String)) :
    List (Except Unit (Option String)) :=
  (filter_func elements).map line_func

/-- The drive-serial derivation of lines 89 and 93–95, as a function of the
`ComponentName` string: second whitespace token when there is more than one
token, else the literal `"unknown"`. -/
def driveSerialSpec (cn : String) : String :=
  let toks := pySplitWhitespace cn
  if toks.length > 1 then toks.getD 1 "" else "unknown"

/-- In-range Python list indexing succeeds. -/
lemma pyIndex_eq_ok (xs : List String) (i : Nat) (h : i < xs.length) :
    pyIndex xs i = Except.ok (xs.getD i "") := by
  simp [pyIndex, List.get?_eq_get h, List.getD_eq_getElem?_getD,
    List.getElem?_eq_getElem h]

/-- Shape of the formatter's output when the eight fields are truthy and the
HRI decomposes into at least 5 tokens. -/
lemma line_from_dict_shape (e : HealthRecord) (hv : truthyAll e = true)
    (h5 : ¬ (hriTokens e).length < 5) :
    line_from_dict e = Except.ok (some
      (pyStr e.Date ++ "," ++ (hriTokens e).getD 1 "" ++ "," ++
       pyStr e.ComponentType ++ "," ++
       driveSerialSpec (e.ComponentName.getD "") ++ "," ++
       pyStr e.Status ++ "," ++ pyStr e.Severity ++ "," ++
       pyStr e.Units ++ "," ++ pyStr e.Value)) := by
  have h2 : 2 < (hriTokens e).length := by omega
  have h1 : 1 < (hriTokens e).length := by omega
  unfold line_from_dict
  rw [hv]
  simp only [Bool.not_true, Bool.false_eq_true, if_false]
  rw [if_neg h5, pyIndex_eq_ok _ _ h2]
  by_cases hc : (pySplitWhitespace (e.ComponentName.getD "")).length > 1
  · rw [if_neg (not_not_intro hc), pyIndex_eq_ok _ _ hc, pyIndex_eq_ok _ _ h1]
    simp [Except.bind, driveSerialSpec, if_pos hc]
  · rw [if_pos hc, pyIndex_eq_ok _ _ h1]
    simp [Except.bind, driveSerialSpec, if_neg hc]

/-- A falsy field makes the formatter return `None` immediately. -/
lemma line_from_dict_of_not_truthy (e : HealthRecord)
    (hv : truthyAll e = false) : line_from_dict e = Except.ok none := by
  unfold line_from_dict
  rw [hv]
  simp

/-- Too few HRI tokens make the formatter return `None`. -/
lemma line_from_dict_of_short (e : HealthRecord)
    (h5 : (hriTokens e).length < 5) : line_from_dict e = Except.ok none := by
  unfold line_from_dict
  by_cases hv : truthyAll e
  · rw [hv]
    simp only [Bool.not_true, Bool.false_eq_true, if_false]
    rw [if_pos h5]
  · rw [Bool.of_not_eq_true hv]
    simp

/-- The record of end-to-end scenario 1 of the spec. -/
def scenario1 : HealthRecord :=
  { HRI := some "/SYS123/encl/naa.5000C5001/drive/temperature"
    Date := some (.str "2023-01-01T00:00:00.000000000Z")
    Value := some (.int 42)
    ComponentName := some "Seagate ST1000"
    ComponentType := some (.str "Drive")
    Severity := some (.str "OK")
    Status := some (.str "Normal")
    Units := some (.str "Celsius") }

/-- The record of end-to-end scenario 3: scenario 1 with the numeric reading
zero. -/
def scenario3 : HealthRecord := { scenario1 with Value := some (.int 0) }

/-- A record like scenario 1 whose HRI does not begin with the separator. -/
def recNoSlash : HealthRecord :=
  { scenario1 with HRI := some "XSYS/a/b/c/temperature" }

/-- Scenario 1 with the string `"0"` (truthy) as the reading. -/
def recStrZero : HealthRecord := { scenario1 with Value := some (.str "0") }

/-- Scenario 1 with the non-numeric string `"hot"` as the reading. -/
def recStrHot : HealthRecord := { scenario1 with Value := some (.str "hot") }

/-- Scenario 1 with a different WWN candidate in token 2 of the HRI. -/
def recOtherWwn : HealthRecord :=
  { scenario1 with HRI := some "/SYS123/encl/naa.9999/drive/temperature" }

/-- The spec's notion of a failing optional string field: missing or empty. -/
def strFieldFalsy (o : Option String) : Prop := o = none ∨ o = some ""

/-- The spec's notion of a failing optional primitive field: missing, empty,
or numerically zero. -/
def valFieldFalsy (o : Option PyVal) : Prop :=
  o = none ∨ o = some (.str "") ∨ o = some (.int 0)

lemma strFieldFalsy_iff (o : Option String) :
    strFieldFalsy o ↔ strTruthy o = false := by
  cases o with
  | none => simp [strFieldFalsy, strTruthy]
  | some s => simp [strFieldFalsy, strTruthy]

lemma valFieldFalsy_iff (o : Option PyVal) :
    valFieldFalsy o ↔ valTruthy o = false := by
  cases o with
  | none => simp [valFieldFalsy, valTruthy]
  | some v =>
    cases v with
    | str s => simp [valFieldFalsy, valTruthy, PyVal.truthy]
    | int n => simp [valFieldFalsy, valTruthy, PyVal.truthy]

/-- C1 (counterexample): scenario 1 passes the selector, but the formatter
does not produce the line the spec's scenario claims — after `hri[1:]` and the
split, token 1 of `/SYS123/encl/naa.5000C5001/drive/temperature` is `encl`,
not `SYS123`. -/
theorem c1_counterexample :
    filter [scenario1] = [scenario1] ∧
    line_from_dict scenario1 ≠
      Except.ok
        (some "2023-01-01T00:00:00.000000000Z,SYS123,Drive,ST1000,Normal,OK,Celsius,42") := by
  refine ⟨rfl, fun h => ?_⟩
  rw [show line_from_dict scenario1 =
      Except.ok
        (some "2023-01-01T00:00:00.000000000Z,encl,Drive,ST1000,Normal,OK,Celsius,42")
    from rfl] at h
  simp at h

/-- C1 (amended): the pipeline keeps the scenario-1 record and produces
exactly one line, whose system-serial field is `encl` (token 1 of the HRI
after the first character is dropped). -/
theorem c1_pipeline_scenario1 :
    filter [scenario1] = [scenario1] ∧
    elements_to_lines [scenario1] filter line_from_dict =
      [Except.ok
        (some "2023-01-01T00:00:00.000000000Z,encl,Drive,ST1000,Normal,OK,Celsius,42")] :=
  ⟨rfl, rfl⟩

/-- C2: the selector keeps exactly the records whose `HRI` is present and
ends with `/temperature` (a missing `HRI` behaves as the empty string and
never matches), preserving the relative input order. -/
theorem c2_selector_exact (l : List HealthRecord) :
    filter l = l.filter (fun d =>
      match d.HRI with
      | some s => pyEndsWith s "/temperature"
      | none => false) ∧
    List.Sublist (filter l) l := by
  have hp : (fun d : HealthRecord => pyEndsWith (d.HRI.getD "") "/temperature") =
      (fun d : HealthRecord =>
        match d.HRI with
        | some s => pyEndsWith s "/temperature"
        | none => false) := by
    funext d
    cases d.HRI <;> rfl
  constructor
  · rw [filter, hp]
  · rw [filter]
    exact List.filter_sublist l

/-- C3: a record with any of the eight relevant fields missing, empty, falsy
or numerically zero is rejected by the formatter with the absence-marker. -/
theorem c3_validation_falsy (e : HealthRecord)
    (h : strFieldFalsy e.HRI ∨ strFieldFalsy e.ComponentName ∨
         valFieldFalsy e.ComponentType ∨ valFieldFalsy e.Date ∨
         valFieldFalsy e.Severity ∨ valFieldFalsy e.Status ∨
         valFieldFalsy e.Units ∨ valFieldFalsy e.Value) :
    line_from_dict e = Except.ok none := by
  apply line_from_dict_of_not_truthy
  simp only [strFieldFalsy_iff, valFieldFalsy_iff] at h
  rcases h with h | h | h | h | h | h | h | h <;> simp [truthyAll, h]

/-- C3 (witness): scenario 3 — scenario 1 with `Value = 0` — satisfies the
falsy-field condition and is rejected. -/
theorem c3_validation_falsy_witness :
    (strFieldFalsy scenario3.HRI ∨ strFieldFalsy scenario3.ComponentName ∨
     valFieldFalsy scenario3.ComponentType ∨ valFieldFalsy scenario3.Date ∨
     valFieldFalsy scenario3.Severity ∨ valFieldFalsy scenario3.Status ∨
     valFieldFalsy scenario3.Units ∨ valFieldFalsy scenario3.Value) ∧
    line_from_dict scenario3 = Except.ok none := by
  have hval : valFieldFalsy scenario3.Value := Or.inr (Or.inr rfl)
  have h : strFieldFalsy scenario3.HRI ∨ strFieldFalsy scenario3.ComponentName ∨
      valFieldFalsy scenario3.ComponentType ∨ valFieldFalsy scenario3.Date ∨
      valFieldFalsy scenario3.Severity ∨ valFieldFalsy scenario3.Status ∨
      valFieldFalsy scenario3.Units ∨ valFieldFalsy scenario3.Value :=
    Or.inr (Or.inr (Or.inr (Or.inr (Or.inr (Or.inr (Or.inr hval))))))
  exact ⟨h, c3_validation_falsy scenario3 h⟩

/-- Appending any string to the `naa.` prefix and stripping the prefix gives
the string back: the 4-character prefix is removed exactly once. -/
lemma wwn_from_token_naa (s : String) : wwn_from_token ("naa." ++ s) = s := by
  obtain ⟨cs⟩ := s
  have hd : ("naa." ++ String.mk cs).data = 'n' :: 'a' :: 'a' :: '.' :: cs := by
    simp [String.data_append]
  unfold wwn_from_token pyStartsWith pyDrop
  rw [hd]
  simp [List.isPrefixOf]

/-- C4: for a record whose eight fields pass validation, fewer than 5 HRI
tokens yield the absence-marker; with at least 5 tokens the emitted line
starts with the date and then token 1 of the HRI as the system serial; and
the `naa.` prefix on the WWN candidate is stripped exactly once (and only
when present). -/
theorem c4_path_decomposition (e : HealthRecord) (hv : truthyAll e = true) :
    ((hriTokens e).length < 5 → line_from_dict e = Except.ok none) ∧
    (¬ (hriTokens e).length < 5 →
      ∃ tail, line_from_dict e = Except.ok (some
        (pyStr e.Date ++ "," ++ (hriTokens e).getD 1 "" ++ "," ++ tail))) ∧
    (∀ s, wwn_from_token ("naa." ++ s) = s) ∧
    (∀ t, pyStartsWith t "naa." = false → wwn_from_token t = t) := by
  refine ⟨fun h5 => line_from_dict_of_short e h5, fun h5 => ?_,
    wwn_from_token_naa, fun t ht => by simp [wwn_from_token, ht]⟩
  refine ⟨pyStr e.ComponentType ++ "," ++
      driveSerialSpec (e.ComponentName.getD "") ++ "," ++
      pyStr e.Status ++ "," ++ pyStr e.Severity ++ "," ++
      pyStr e.Units ++ "," ++ pyStr e.Value, ?_⟩
  rw [line_from_dict_shape e hv h5]
  simp [String.append_assoc]

/-- C4 (witness): instantiated at the scenario-1 record, which passes
validation and has exactly 5 HRI tokens. -/
theorem c4_path_decomposition_witness :
    truthyAll scenario1 = true ∧
    (((hriTokens scenario1).length < 5 → line_from_dict scenario1 = Except.ok none) ∧
     (¬ (hriTokens scenario1).length < 5 →
       ∃ tail, line_from_dict scenario1 = Except.ok (some
         (pyStr scenario1.Date ++ "," ++ (hriTokens scenario1).getD 1 "" ++ "," ++ tail))) ∧
     (∀ s, wwn_from_token ("naa." ++ s) = s) ∧
     (∀ t, pyStartsWith t "naa." = false → wwn_from_token t = t)) :=
  ⟨by decide, c4_path_decomposition scenario1 (by decide)⟩

/-- C5: for a record passing validation and path decomposition, the fourth
field of the emitted line is the drive serial derived from `ComponentName` —
the second whitespace token when more than one results, else `"unknown"`; in
particular `"Seagate ST1000"` gives `"ST1000"` and `"SingleToken"` gives
`"unknown"`. -/
theorem c5_drive_serial (e : HealthRecord) (hv : truthyAll e = true)
    (h5 : ¬ (hriTokens e).length < 5) :
    (∃ front tail, line_from_dict e = Except.ok (some
      (front ++ "," ++ driveSerialSpec (e.ComponentName.getD "") ++ "," ++ tail)) ∧
      front = pyStr e.Date ++ "," ++ (hriTokens e).getD 1 "" ++ "," ++
        pyStr e.ComponentType) ∧
    driveSerialSpec "Seagate ST1000" = "ST1000" ∧
    driveSerialSpec "SingleToken" = "unknown" := by
  refine ⟨⟨pyStr e.Date ++ "," ++ (hriTokens e).getD 1 "" ++ "," ++
      pyStr e.ComponentType,
      pyStr e.Status ++ "," ++ pyStr e.Severity ++ "," ++
      pyStr e.Units ++ "," ++ pyStr e.Value, ?_, rfl⟩, by decide, by decide⟩
  rw [line_from_dict_shape e hv h5]
  simp [String.append_assoc]

/-- C5 (witness): instantiated at the scenario-1 record. -/
theorem c5_drive_serial_witness :
    truthyAll scenario1 = true ∧ ¬ (hriTokens scenario1).length < 5 ∧
    ((∃ front tail, line_from_dict scenario1 = Except.ok (some
      (front ++ "," ++ driveSerialSpec (scenario1.ComponentName.getD "") ++ "," ++ tail)) ∧
      front = pyStr scenario1.Date ++ "," ++ (hriTokens scenario1).getD 1 "" ++ "," ++
        pyStr scenario1.ComponentType) ∧
     driveSerialSpec "Seagate ST1000" = "ST1000" ∧
     driveSerialSpec "SingleToken" = "unknown") :=
  ⟨by decide, by decide, c5_drive_serial scenario1 (by decide) (by decide)⟩

/-- C6: the formatter is total — on every record it returns a value (a line
or the absence-marker) and never reaches the `IndexError` branch of list
indexing. -/
theorem c6_formatter_total (e : HealthRecord) :
    ∃ r, line_from_dict e = Except.ok r := by
  by_cases hv : truthyAll e = true
  · by_cases h5 : (hriTokens e).length < 5
    · exact ⟨none, line_from_dict_of_short e h5⟩
    · exact ⟨some _, line_from_dict_shape e hv h5⟩
  · exact ⟨none, line_from_dict_of_not_truthy e (Bool.of_not_eq_true hv)⟩

/-- C7: with the default strategies, the pipeline composer yields exactly the
formatter applied to each record kept by the selector, in input order, one
element per survivor — a finite list, so processing terminates. -/
theorem c7_pipeline_composition (l : List HealthRecord) :
    elements_to_lines l filter line_from_dict = (filter l).map line_from_dict ∧
    (elements_to_lines l filter line_from_dict).length = (filter l).length := by
  exact ⟨rfl, by simp [elements_to_lines]⟩

/-- C8: the derived WWN never influences the output — two records that pass
validation and decomposition and are identical except in token 2 of the HRI
format to the same result. -/
theorem c8_wwn_noninterference (e₁ e₂ : HealthRecord)
    (hv₁ : truthyAll e₁ = true) (hv₂ : truthyAll e₂ = true)
    (h₁ : ¬ (hriTokens e₁).length < 5) (h₂ : ¬ (hriTokens e₂).length < 5)
    (hset : (hriTokens e₁).set 2 "" = (hriTokens e₂).set 2 "")
    (hD : e₁.Date = e₂.Date) (hV : e₁.Value = e₂.Value)
    (hCN : e₁.ComponentName = e₂.ComponentName)
    (hCT : e₁.ComponentType = e₂.ComponentType)
    (hSv : e₁.Severity = e₂.Severity) (hSt : e₁.Status = e₂.Status)
    (hU : e₁.Units = e₂.Units) :
    line_from_dict e₁ = line_from_dict e₂ := by
  have hone : ∀ t : List String, (t.set 2 "").getD 1 "" = t.getD 1 "" := by
    intro t
    simp [List.getD_eq_getElem?_getD, List.getElem?_set_ne (show 2 ≠ 1 by decide)]
  have hg : (hriTokens e₁).getD 1 "" = (hriTokens e₂).getD 1 "" := by
    rw [← hone (hriTokens e₁), ← hone (hriTokens e₂)]
    exact congrArg (fun l : List String => l.getD 1 "") hset
  rw [line_from_dict_shape e₁ hv₁ h₁, line_from_dict_shape e₂ hv₂ h₂,
    hD, hCN, hCT, hSv, hSt, hU, hV, hg]

/-- C8 (witness): scenario 1 and the same record with a different WWN
candidate in token 2 produce the same line. -/
theorem c8_wwn_noninterference_witness :
    truthyAll scenario1 = true ∧ truthyAll recOtherWwn = true ∧
    (hriTokens scenario1).set 2 "" = (hriTokens recOtherWwn).set 2 "" ∧
    line_from_dict scenario1 = line_from_dict recOtherWwn :=
  ⟨by decide, by decide, by decide,
    c8_wwn_noninterference scenario1 recOtherWwn (by decide) (by decide)
      (by decide) (by decide) (by decide) rfl rfl rfl rfl rfl rfl rfl⟩

/-- C9: the formatter drops the first character of the HRI unconditionally —
on a record whose HRI `XSYS/a/b/c/temperature` does not begin with the
separator, the tokens are `SYS,a,b,c,temperature`, the emitted system serial
is `a`, and the record is not rejected. -/
theorem c9_unconditional_first_char_drop :
    pyStartsWith (recNoSlash.HRI.getD "") "/" = false ∧
    hriTokens recNoSlash = ["SYS", "a", "b", "c", "temperature"] ∧
    line_from_dict recNoSlash = Except.ok
      (some "2023-01-01T00:00:00.000000000Z,a,Drive,ST1000,Normal,OK,Celsius,42") :=
  ⟨by decide, by decide, rfl⟩

/-- C10: validation is truthiness only — the string `"0"` and the string
`"hot"` as `Value` pass and are interpolated verbatim (the line ends in `,0`
resp. `,hot`), while the number `0` as `Value` yields the absence-marker. -/
theorem c10_truthiness_only :
    line_from_dict recStrZero = Except.ok
      (some "2023-01-01T00:00:00.000000000Z,encl,Drive,ST1000,Normal,OK,Celsius,0") ∧
    pyEndsWith "2023-01-01T00:00:00.000000000Z,encl,Drive,ST1000,Normal,OK,Celsius,0" ",0" = true ∧
    line_from_dict recStrHot = Except.ok
      (some "2023-01-01T00:00:00.000000000Z,encl,Drive,ST1000,Normal,OK,Celsius,hot") ∧
    line_from_dict scenario3 = Except.ok none :=
  ⟨rfl, by decide, rfl, rfl⟩
